import Mathlib

/-!
Verification of the relevance-filtering logic of the Job-Market-Analysis
repository (`src/data_collection.py`, class `CompanyContextFilter`).

Texts are modelled as lists of characters.  Python's
`re.finditer(r'\b' + re.escape(name) + r'\b', text, re.IGNORECASE)` is
modelled by a left-to-right scan producing the list of match start
positions: a match at a position requires a case-insensitive character-wise
match of the (escaped, hence literal) name and a word boundary on both
sides, and matching is non-overlapping (the scan resumes after the matched
characters).  The spaCy pipeline `nlp` is not reproducible in Lean; it is
abstracted as an injected function from a text to its recognised entities,
exactly the part of the spaCy output that `analyze_entity_type` inspects.
Scores are real numbers (the Python floats compute `np.log1p` quotients).
-/

/-- Texts are lists of characters. -/
abbrev Str := List Char

/-- Convert a literal string to the character-list representation. -/
def ofStr (s : String) : Str := s.toList

/-- Convert a list of literal strings. -/
def strs (l : List String) : List Str := l.map String.toList

/-- Python regex `\w` (word character): alphanumeric or underscore. -/
def isWordChar (c : Char) : Bool := c.isAlphanum || c == '_'

/-- Word-character test for an optional character; positions outside the
text count as non-word, as in Python's `\b` semantics. -/
def optWordChar : Option Char → Bool
  | some c => isWordChar c
  | none => false

/-- Python regex `\b`: a word boundary lies between two (optional)
characters when exactly one of them is a word character. -/
def wordBoundary (l r : Option Char) : Bool := optWordChar l != optWordChar r

/-- Lowercase every character, modelling Python `str.lower()` on the
ASCII company names and terms used by the filter. -/
def toLowerStr (s : Str) : Str := s.map Char.toLower

/-- Case-insensitive character-wise match of `name` against the front of a
text; on success returns the consumed text characters and the rest.  This
is the literal-pattern core of the `re.escape(company_name)` regex. -/
def ciMatch : Str → Str → Option (Str × Str)
  | [], rest => some ([], rest)
  | _ :: _, [] => none
  | n :: ns, t :: ts =>
    if n.toLower == t.toLower then
      match ciMatch ns ts with
      | some (consumed, rest) => some (t :: consumed, rest)
      | none => none
    else none

/-- Scan of `re.finditer(r'\b name \b', text, re.IGNORECASE)`, collecting
match start positions.  `skip` counts characters still covered by the most
recent match (non-overlapping semantics), `i` is the current position and
`prev` the previous character.  For the empty pattern (never produced by
`is_about_company`, which returns before matching when the name is empty)
the scan checks the boundary only against the left context. -/
def scanAux (company_name : Str) : Nat → Nat → Option Char → Str → List Nat
  | _, _, _, [] => []
  | skip + 1, i, _, t :: ts => scanAux company_name skip (i + 1) (some t) ts
  | 0, i, prev, t :: ts =>
    match ciMatch company_name (t :: ts) with
    | some (consumed, rest) =>
      if wordBoundary prev (some t) && wordBoundary consumed.getLast? rest.head? then
        i :: scanAux company_name (company_name.length - 1) (i + 1) (some t) ts
      else
        scanAux company_name 0 (i + 1) (some t) ts
    | none => scanAux company_name 0 (i + 1) (some t) ts

/-- Start positions of all case-insensitive whole-word matches of
`company_name` in `text`. -/
def findMatchStarts (text company_name : Str) : List Nat :=
  scanAux company_name 0 0 none text

/-- Number of matches, modelling
`len(re.findall(pattern, text, re.IGNORECASE))` (line 186). -/
def countMentions (text company_name : Str) : Nat :=
  (findMatchStarts text company_name).length

/-- Window of `get_surrounding_context` for a match starting at `s`:
`text[max(0, s - window) : min(len(text), s + len(name) + window)]`
(natural-number subtraction is the `max(0, ...)` clamp). -/
def contextWindow (text company_name : Str) (window s : Nat) : Str :=
  (text.drop (s - window)).take
    (min text.length (s + company_name.length + window) - (s - window))

/-- Model of `CompanyContextFilter.get_surrounding_context` (lines
129-139): one clamped window of `window` characters on either side of
every whole-word match of the company name. -/
def get_surrounding_context (text company_name : Str) (window : Nat) : List Str :=
  (findMatchStarts text company_name).map (contextWindow text company_name window)

/-- Python `p in t` on strings: `p` occurs as a contiguous substring. -/
def isSubstrOf (p t : Str) : Bool := t.tails.any (fun s => p.isPrefixOf s)

/-- The part of a spaCy entity that `analyze_entity_type` reads: its label
and its text. -/
structure SpacyEnt where
  label : Str
  text : Str
deriving DecidableEq

/-- Model of `CompanyContextFilter.analyze_entity_type` (lines 141-148),
with the spaCy pipeline abstracted as the injected `nlpEnts` returning the
entities recognised in a text: true when some recognised entity is an ORG
whose text contains the company name case-insensitively. -/
def analyze_entity_type (nlpEnts : Str → List SpacyEnt) (text company_name : Str) : Bool :=
  let company_lower := toLowerStr company_name
  (nlpEnts text).any (fun ent =>
    ent.label == ofStr "ORG" && isSubstrOf company_lower (toLowerStr ent.text))

/-- One entry of the `company_contexts` table: industry terms, company
identifiers, founders (present only for Traba and never read by the
scorer) and the per-company `min_score`. -/
structure CompanyContext where
  industry_terms : List Str
  company_identifiers : List Str
  founders : List Str
  min_score : ℚ
deriving DecidableEq

/-- The static `company_contexts` dictionary built in
`CompanyContextFilter.__init__` (lines 75-127), as an association list. -/
def company_contexts : List (Str × CompanyContext) :=
  [ (ofStr "Traba",
      ⟨strs ["staffing", "workforce", "gig economy", "labor", "workers",
             "temporary staffing", "shifts", "marketplace", "platform"],
       strs ["Traba Inc", "Traba platform", "Traba app", "Traba.work"],
       strs ["Mike Shebat", "Akshay Buddiga"], 0.6⟩),
    (ofStr "Instawork",
      ⟨strs ["staffing", "gig", "hospitality", "shifts", "workers",
             "flexible work", "hourly work", "marketplace"],
       strs ["Instawork platform", "Instawork app"], [], 0.6⟩),
    (ofStr "Wonolo",
      ⟨strs ["staffing", "on-demand", "flexible work", "gig economy",
             "warehouse", "fulfillment", "frontline workers"],
       strs ["Wonolo platform", "Wonolo app", "Wonolo Inc"], [], 0.6⟩),
    (ofStr "Ubeya",
      ⟨strs ["staffing", "workforce management", "hospitality", "event staffing",
             "staff management", "scheduling"],
       strs ["Ubeya platform", "Ubeya software", "Ubeya app"], [], 0.6⟩),
    (ofStr "Sidekicker",
      ⟨strs ["staffing", "temp agency", "casual staff", "hospitality",
             "event staff", "Australia", "New Zealand"],
       strs ["Sidekicker platform", "Sidekicker app"], [], 0.6⟩),
    (ofStr "Zenjob",
      ⟨strs ["temporary staffing", "temp work", "student jobs", "Germany",
             "flexible jobs", "digital staffing"],
       strs ["Zenjob GmbH", "Zenjob app", "Zenjob platform"], [], 0.6⟩),
    (ofStr "Veryable",
      ⟨strs ["on-demand labor", "manufacturing", "logistics", "operations",
             "flexible workforce", "industrial"],
       strs ["Veryable platform", "Veryable marketplace", "Veryable Inc"], [], 0.6⟩),
    (ofStr "Shiftgig",
      ⟨strs ["staffing", "deployment", "workforce", "shifts",
             "gig economy", "staffing agencies"],
       strs ["Shiftgig platform", "Deploy by Shiftgig"], [], 0.6⟩) ]

/-- Lookup `self.company_contexts.get(company_name, {}).get("industry_terms", [])`. -/
def industryTermsOf (company_name : Str) : List Str :=
  ((company_contexts.lookup company_name).map CompanyContext.industry_terms).getD []

/-- Lookup `self.company_contexts.get(company_name, {}).get("company_identifiers", [])`. -/
def identifiersOf (company_name : Str) : List Str :=
  ((company_contexts.lookup company_name).map CompanyContext.company_identifiers).getD []

/-- Model of `CompanyContextFilter.contains_industry_terms` (lines
150-165): the set of configured industry terms and company identifiers
whose lowercase form occurs as a substring of the lowercased text,
modelled as a deduplicated list. -/
def contains_industry_terms (text company_name : Str) : List Str :=
  let text_lower := toLowerStr text
  ((industryTermsOf company_name).filter (fun term => isSubstrOf (toLowerStr term) text_lower) ++
   (identifiersOf company_name).filter (fun ident => isSubstrOf (toLowerStr ident) text_lower)).dedup

/-- The set `set(...get("industry_terms", []))` of line 206. -/
def industryTermSet (company_name : Str) : List Str :=
  (industryTermsOf company_name).dedup

/-- The set `set(...get("company_identifiers", []))` of line 207. -/
def identifierTermSet (company_name : Str) : List Str :=
  (identifiersOf company_name).dedup

/-- Count of line 211: matched terms that are industry terms. -/
def industryMatchCount (text company_name : Str) : Nat :=
  (contains_industry_terms text company_name).countP
    (fun t => (industryTermSet company_name).contains t)

/-- Count of line 215: matched terms that are company identifiers. -/
def identifierMatchCount (text company_name : Str) : Nat :=
  (contains_industry_terms text company_name).countP
    (fun t => (identifierTermSet company_name).contains t)

/-- Weight of the `name_frequency` signal (line 221). -/
noncomputable def weight_name_frequency : ℝ := 0.15

/-- Weight of the `is_org_entity` signal (line 222). -/
noncomputable def weight_is_org_entity : ℝ := 0.25

/-- Weight of the `industry_terms` signal (line 223). -/
noncomputable def weight_industry_terms : ℝ := 0.3

/-- Weight of the `company_identifiers` signal (line 224). -/
noncomputable def weight_company_identifiers : ℝ := 0.3

/-- Name-frequency sub-score of line 190:
`min(0.7, 0.2 + 0.5 * (np.log1p(mentions) / np.log1p(10)))`, with
`np.log1p x = log (1 + x)`. -/
noncomputable def nameFreqScore (mentions : Nat) : ℝ :=
  min 0.7 (0.2 + 0.5 * (Real.log (1 + (mentions : ℝ)) / Real.log (1 + 10)))

/-- Entity-recognition check of lines 198-201: whether any of the first
three context windows makes `analyze_entity_type` succeed. -/
def orgEntityInContexts (nlpEnts : Str → List SpacyEnt)
    (contexts : List Str) (company_name : Str) : Bool :=
  (contexts.take (min 3 contexts.length)).any
    (fun context => analyze_entity_type nlpEnts context company_name)

/-- The `is_org_entity` sub-score: 0.7 when an ORG entity naming the
company is recognised in one of the first three windows, else its
initial value 0.0. -/
noncomputable def scoreIsOrgEntity (nlpEnts : Str → List SpacyEnt)
    (contexts : List Str) (company_name : Str) : ℝ :=
  if orgEntityInContexts nlpEnts contexts company_name then 0.7 else 0.0

/-- The `industry_terms` sub-score of lines 210-212:
`min(0.8, 0.8 * (industry_matches / len(industry_terms)))` when the
industry-term set is non-empty, else its initial value 0.0. -/
noncomputable def scoreIndustryTerms (text company_name : Str) : ℝ :=
  if industryTermSet company_name = [] then 0.0
  else
    min 0.8 (0.8 * ((industryMatchCount text company_name : ℝ) /
      ((industryTermSet company_name).length : ℝ)))

/-- The `company_identifiers` sub-score of lines 214-217:
`min(1.0, 0.5 + 0.5 * (identifier_matches / len(company_identifiers)))`
when the identifier set is non-empty and at least one identifier matched,
else its initial value 0.0. -/
noncomputable def scoreCompanyIdentifiers (text company_name : Str) : ℝ :=
  if identifierTermSet company_name = [] then 0.0
  else if identifierMatchCount text company_name = 0 then 0.0
  else
    min 1.0 (0.5 + 0.5 * ((identifierMatchCount text company_name : ℝ) /
      ((identifierTermSet company_name).length : ℝ)))

/-- Threshold default of line 174:
`self.company_contexts.get(company_name, {}).get("min_score", 0.6)`. -/
noncomputable def defaultThreshold (company_name : Str) : ℝ :=
  ((((company_contexts.lookup company_name).map CompanyContext.min_score).getD 0.6 : ℚ) : ℝ)

/-- Weighted confidence of line 227, as a function of the inputs reaching
the final step. -/
noncomputable def confidenceOf (nlpEnts : Str → List SpacyEnt)
    (text company_name : Str) : ℝ :=
  weight_name_frequency * nameFreqScore (countMentions text company_name) +
  weight_is_org_entity *
    scoreIsOrgEntity nlpEnts (get_surrounding_context text company_name 50) company_name +
  weight_industry_terms * scoreIndustryTerms text company_name +
  weight_company_identifiers * scoreCompanyIdentifiers text company_name

/-- Model of `CompanyContextFilter.is_about_company` (lines 167-229),
returning `(is_relevant, confidence_score, contexts)`.  The spaCy
pipeline is the injected `nlpEnts`; `threshold?` is the optional
`threshold` parameter (Python default `None`). -/
noncomputable def is_about_company (nlpEnts : Str → List SpacyEnt)
    (text company_name : Str) (threshold? : Option ℝ) : Bool × ℝ × List Str :=
  if text = [] ∨ company_name = [] then (false, 0.0, [])
  else
    let threshold := threshold?.getD (defaultThreshold company_name)
    let mentions := countMentions text company_name
    if mentions = 0 then (false, 0.0, [])
    else
      let contexts := get_surrounding_context text company_name 50
      if contexts = [] then (false, 0.0, [])
      else
        let confidence_score := confidenceOf nlpEnts text company_name
        (decide (threshold ≤ confidence_score), confidence_score, contexts)

/-- Every match produces exactly one context window. -/
theorem length_get_surrounding_context (text company_name : Str) (window : Nat) :
    (get_surrounding_context text company_name window).length =
      countMentions text company_name := by
  simp [get_surrounding_context, countMentions]

/-- Every list slice `take`/`drop` slice is surrounded by the rest of the
list. -/
theorem exists_slice_decomposition (l : List Char) (s k : Nat) :
    ∃ pre post, l = pre ++ (l.drop s).take k ++ post := by
  refine ⟨l.take s, (l.drop s).drop k, ?_⟩
  rw [List.append_assoc, List.take_append_drop, List.take_append_drop]

/-- Unfolding of `is_about_company` on inputs that pass the mention gate. -/
theorem is_about_company_of_mentions (nlpEnts : Str → List SpacyEnt)
    (text company_name : Str) (threshold? : Option ℝ)
    (hT : text ≠ []) (hN : company_name ≠ [])
    (hm : countMentions text company_name ≠ 0) :
    is_about_company nlpEnts text company_name threshold? =
      (decide (threshold?.getD (defaultThreshold company_name) ≤
          confidenceOf nlpEnts text company_name),
       confidenceOf nlpEnts text company_name,
       get_surrounding_context text company_name 50) := by
  have hc : get_surrounding_context text company_name 50 ≠ [] := by
    intro h
    apply hm
    have hl := length_get_surrounding_context text company_name 50
    rw [h] at hl
    simpa using hl.symm
  simp [is_about_company, hT, hN, hm, hc]

/-- The name-frequency sub-score never exceeds its cap 0.7. -/
theorem nameFreqScore_le (m : Nat) : nameFreqScore m ≤ 0.7 := min_le_left _ _

/-- The name-frequency sub-score is non-negative. -/
theorem nameFreqScore_nonneg (m : Nat) : 0 ≤ nameFreqScore m := by
  apply le_min (by norm_num)
  have h1 : (0 : ℝ) ≤ Real.log (1 + (m : ℝ)) :=
    Real.log_nonneg (le_add_of_nonneg_right (Nat.cast_nonneg m))
  have h2 : (0 : ℝ) < Real.log (1 + 10) := Real.log_pos (by norm_num)
  have h3 : (0 : ℝ) ≤ Real.log (1 + (m : ℝ)) / Real.log (1 + 10) := div_nonneg h1 h2.le
  linarith

/-- The name-frequency sub-score is monotone in the mention count. -/
theorem nameFreqScore_mono {m m' : Nat} (h : m ≤ m') :
    nameFreqScore m ≤ nameFreqScore m' := by
  unfold nameFreqScore
  apply min_le_min le_rfl
  have h2 : (0 : ℝ) < Real.log (1 + 10) := Real.log_pos (by norm_num)
  have hlog : Real.log (1 + (m : ℝ)) ≤ Real.log (1 + (m' : ℝ)) := by
    apply Real.log_le_log (by positivity)
    have : (m : ℝ) ≤ (m' : ℝ) := Nat.cast_le.mpr h
    linarith
  have h4 := (div_le_div_right h2).mpr hlog
  linarith

/-- The entity-recognition sub-score takes only the values 0.0 and 0.7. -/
theorem scoreIsOrgEntity_cases (nlpEnts : Str → List SpacyEnt)
    (contexts : List Str) (company_name : Str) :
    scoreIsOrgEntity nlpEnts contexts company_name = 0.0 ∨
      scoreIsOrgEntity nlpEnts contexts company_name = 0.7 := by
  unfold scoreIsOrgEntity
  split
  · exact Or.inr rfl
  · exact Or.inl rfl

/-- The entity-recognition sub-score is non-negative. -/
theorem scoreIsOrgEntity_nonneg (nlpEnts : Str → List SpacyEnt)
    (contexts : List Str) (company_name : Str) :
    0 ≤ scoreIsOrgEntity nlpEnts contexts company_name := by
  rcases scoreIsOrgEntity_cases nlpEnts contexts company_name with h | h <;>
    rw [h] <;> norm_num

/-- The entity-recognition sub-score never exceeds its cap 0.7. -/
theorem scoreIsOrgEntity_le (nlpEnts : Str → List SpacyEnt)
    (contexts : List Str) (company_name : Str) :
    scoreIsOrgEntity nlpEnts contexts company_name ≤ 0.7 := by
  rcases scoreIsOrgEntity_cases nlpEnts contexts company_name with h | h <;>
    rw [h] <;> norm_num

/-- The industry-terms sub-score is non-negative. -/
theorem scoreIndustryTerms_nonneg (text company_name : Str) :
    0 ≤ scoreIndustryTerms text company_name := by
  unfold scoreIndustryTerms
  split
  · norm_num
  · exact le_min (by norm_num) (by positivity)

/-- The industry-terms sub-score never exceeds its cap 0.8. -/
theorem scoreIndustryTerms_le (text company_name : Str) :
    scoreIndustryTerms text company_name ≤ 0.8 := by
  unfold scoreIndustryTerms
  split
  · norm_num
  · exact min_le_left _ _

/-- The company-identifiers sub-score is non-negative. -/
theorem scoreCompanyIdentifiers_nonneg (text company_name : Str) :
    0 ≤ scoreCompanyIdentifiers text company_name := by
  unfold scoreCompanyIdentifiers
  split
  · norm_num
  · split
    · norm_num
    · exact le_min (by norm_num) (by positivity)

/-- The company-identifiers sub-score never exceeds its cap 1.0. -/
theorem scoreCompanyIdentifiers_le (text company_name : Str) :
    scoreCompanyIdentifiers text company_name ≤ 1.0 := by
  unfold scoreCompanyIdentifiers
  split
  · norm_num
  · split
    · norm_num
    · exact min_le_left _ _

/-- For a company absent from the table, the configured industry-term set
is empty, so the industry-terms sub-score is 0. -/
theorem scoreIndustryTerms_of_lookup_none {company_name : Str}
    (h : company_contexts.lookup company_name = none) (text : Str) :
    scoreIndustryTerms text company_name = 0 := by
  have hset : industryTermSet company_name = [] := by
    simp [industryTermSet, industryTermsOf, h]
  norm_num [scoreIndustryTerms, hset]

/-- For a company absent from the table, the configured identifier set is
empty, so the company-identifiers sub-score is 0. -/
theorem scoreCompanyIdentifiers_of_lookup_none {company_name : Str}
    (h : company_contexts.lookup company_name = none) (text : Str) :
    scoreCompanyIdentifiers text company_name = 0 := by
  have hset : identifierTermSet company_name = [] := by
    simp [identifierTermSet, identifiersOf, h]
  norm_num [scoreCompanyIdentifiers, hset]

/-- For a company absent from the table, the default threshold is 0.6. -/
theorem defaultThreshold_of_lookup_none {company_name : Str}
    (h : company_contexts.lookup company_name = none) :
    defaultThreshold company_name = 0.6 := by
  norm_num [defaultThreshold, h]

/-- Unfolding of `is_about_company` when the whole-word mention count is
zero (this covers the empty-input early return as well, since an empty
text has no matches). -/
theorem is_about_company_of_zero_mentions (nlpEnts : Str → List SpacyEnt)
    (text company_name : Str) (threshold? : Option ℝ)
    (h : countMentions text company_name = 0) :
    is_about_company nlpEnts text company_name threshold? = (false, 0.0, []) := by
  unfold is_about_company
  split
  · rfl
  · simp [h]

/-- C1: a text with zero case-insensitive whole-word matches of the entity
name yields confidence 0.0 and `is_relevant = false`, whatever the
configured terms or supplied threshold — the mention count is a hard gate
evaluated before any other signal. -/
theorem zero_mentions_hard_gate (nlpEnts : Str → List SpacyEnt)
    (text company_name : Str) (threshold? : Option ℝ)
    (h : countMentions text company_name = 0) :
    is_about_company nlpEnts text company_name threshold? = (false, 0.0, []) :=
  is_about_company_of_zero_mentions nlpEnts text company_name threshold? h

/-- Witness for C1 at a concrete text that never names the entity. -/
theorem zero_mentions_hard_gate_witness :
    countMentions (ofStr "The Trabant is a classic car") (ofStr "Traba") = 0 ∧
    is_about_company (fun _ => []) (ofStr "The Trabant is a classic car")
      (ofStr "Traba") none = (false, 0.0, []) :=
  ⟨by decide, zero_mentions_hard_gate (fun _ => []) (ofStr "The Trabant is a classic car")
    (ofStr "Traba") none (by decide)⟩

/-- C2: on every input reaching the final step, the returned confidence is
`0.15*name_frequency + 0.25*entity_recognition + 0.30*industry_terms +
0.30*identifier_terms`, and the four fixed weights sum to 1. -/
theorem confidence_is_weighted_sum (nlpEnts : Str → List SpacyEnt)
    (text company_name : Str) (threshold? : Option ℝ)
    (hT : text ≠ []) (hN : company_name ≠ [])
    (hm : 1 ≤ countMentions text company_name) :
    (is_about_company nlpEnts text company_name threshold?).2.1 =
      0.15 * nameFreqScore (countMentions text company_name) +
      0.25 * scoreIsOrgEntity nlpEnts
        (get_surrounding_context text company_name 50) company_name +
      0.30 * scoreIndustryTerms text company_name +
      0.30 * scoreCompanyIdentifiers text company_name ∧
    weight_name_frequency + weight_is_org_entity + weight_industry_terms +
      weight_company_identifiers = 1 := by
  constructor
  · rw [is_about_company_of_mentions nlpEnts text company_name threshold? hT hN (by omega)]
    norm_num [confidenceOf, weight_name_frequency, weight_is_org_entity,
      weight_industry_terms, weight_company_identifiers]
  · norm_num [weight_name_frequency, weight_is_org_entity,
      weight_industry_terms, weight_company_identifiers]

/-- Witness for C2 at a concrete scoring call passing the mention gate. -/
theorem confidence_is_weighted_sum_witness :
    ofStr "Traba is hiring" ≠ [] ∧ ofStr "Traba" ≠ [] ∧
    1 ≤ countMentions (ofStr "Traba is hiring") (ofStr "Traba") ∧
    ((is_about_company (fun _ => []) (ofStr "Traba is hiring") (ofStr "Traba") none).2.1 =
      0.15 * nameFreqScore (countMentions (ofStr "Traba is hiring") (ofStr "Traba")) +
      0.25 * scoreIsOrgEntity (fun _ => [])
        (get_surrounding_context (ofStr "Traba is hiring") (ofStr "Traba") 50) (ofStr "Traba") +
      0.30 * scoreIndustryTerms (ofStr "Traba is hiring") (ofStr "Traba") +
      0.30 * scoreCompanyIdentifiers (ofStr "Traba is hiring") (ofStr "Traba") ∧
    weight_name_frequency + weight_is_org_entity + weight_industry_terms +
      weight_company_identifiers = 1) :=
  ⟨by decide, by decide, by decide,
    confidence_is_weighted_sum (fun _ => []) (ofStr "Traba is hiring") (ofStr "Traba") none
      (by decide) (by decide) (by decide)⟩

/-- C3: past the mention gate, `is_relevant` holds exactly when the
confidence is at least the effective threshold (inclusive boundary), the
effective threshold being the explicit argument if supplied, else the
entity's configured `min_score`, else 0.6 for an unconfigured entity. -/
theorem decision_threshold_inclusive (nlpEnts : Str → List SpacyEnt)
    (text company_name : Str) (threshold? : Option ℝ)
    (hT : text ≠ []) (hN : company_name ≠ [])
    (hm : 1 ≤ countMentions text company_name) :
    ((is_about_company nlpEnts text company_name threshold?).1 = true ↔
      threshold?.getD (defaultThreshold company_name) ≤
        (is_about_company nlpEnts text company_name threshold?).2.1) ∧
    (company_contexts.lookup company_name = none →
      defaultThreshold company_name = 0.6) := by
  constructor
  · rw [is_about_company_of_mentions nlpEnts text company_name threshold? hT hN (by omega)]
    simp
  · exact fun h => defaultThreshold_of_lookup_none h

/-- Witness for C3 at a concrete scoring call passing the mention gate. -/
theorem decision_threshold_inclusive_witness :
    ofStr "Traba is hiring" ≠ [] ∧ ofStr "Traba" ≠ [] ∧
    1 ≤ countMentions (ofStr "Traba is hiring") (ofStr "Traba") ∧
    (((is_about_company (fun _ => []) (ofStr "Traba is hiring") (ofStr "Traba") none).1 = true ↔
      (none : Option ℝ).getD (defaultThreshold (ofStr "Traba")) ≤
        (is_about_company (fun _ => []) (ofStr "Traba is hiring") (ofStr "Traba") none).2.1) ∧
    (company_contexts.lookup (ofStr "Traba") = none →
      defaultThreshold (ofStr "Traba") = 0.6)) :=
  ⟨by decide, by decide, by decide,
    decision_threshold_inclusive (fun _ => []) (ofStr "Traba is hiring") (ofStr "Traba") none
      (by decide) (by decide) (by decide)⟩

/-- C5: an empty text or an empty entity name makes `is_about_company`
return immediately with confidence 0.0 and `is_relevant = false` (the
model is a total function: no exception is possible), regardless of the
configured terms or the supplied threshold. -/
theorem empty_inputs_return_zero (nlpEnts : Str → List SpacyEnt)
    (text company_name : Str) (threshold? : Option ℝ)
    (h : text = [] ∨ company_name = []) :
    is_about_company nlpEnts text company_name threshold? = (false, 0.0, []) := by
  unfold is_about_company
  rw [if_pos h]

/-- Witness for C5 at the empty text. -/
theorem empty_inputs_return_zero_witness :
    (([] : Str) = [] ∨ ofStr "Traba" = []) ∧
    is_about_company (fun _ => []) [] (ofStr "Traba") (some 0.0) = (false, 0.0, []) :=
  ⟨Or.inl rfl,
    empty_inputs_return_zero (fun _ => []) [] (ofStr "Traba") (some 0.0) (Or.inl rfl)⟩

/-- C6: for mention counts m ≥ 1 the name-frequency sub-score equals
`min(0.7, 0.2 + 0.5 * log(1+m)/log(1+10))`; it never decreases when the
mention count increases and is bounded above by 0.7. -/
theorem name_frequency_formula_mono_bounded (m m' : Nat) (h1 : 1 ≤ m) (h2 : m ≤ m') :
    nameFreqScore m =
      min 0.7 (0.2 + 0.5 * (Real.log (1 + (m : ℝ)) / Real.log (1 + 10))) ∧
    nameFreqScore m ≤ nameFreqScore m' ∧ nameFreqScore m ≤ 0.7 :=
  ⟨rfl, nameFreqScore_mono h2, nameFreqScore_le m⟩

/-- Witness for C6 at mention counts 1 and 2. -/
theorem name_frequency_formula_mono_bounded_witness :
    1 ≤ 1 ∧ 1 ≤ 2 ∧
    (nameFreqScore 1 =
      min 0.7 (0.2 + 0.5 * (Real.log (1 + (1 : ℝ)) / Real.log (1 + 10))) ∧
    nameFreqScore 1 ≤ nameFreqScore 2 ∧ nameFreqScore 1 ≤ 0.7) :=
  ⟨le_refl 1, by omega, by
    have h := name_frequency_formula_mono_bounded 1 2 (by omega) (by omega)
    simpa using h⟩

/-- C9: each sub-score is bounded by its per-signal cap (0.7, 0.7, 0.8,
1.0 respectively) and is non-negative, for every input. -/
theorem subscore_caps (nlpEnts : Str → List SpacyEnt)
    (contexts : List Str) (text company_name : Str) (m : Nat) :
    (0 ≤ nameFreqScore m ∧ nameFreqScore m ≤ 0.7) ∧
    (0 ≤ scoreIsOrgEntity nlpEnts contexts company_name ∧
      scoreIsOrgEntity nlpEnts contexts company_name ≤ 0.7) ∧
    (0 ≤ scoreIndustryTerms text company_name ∧
      scoreIndustryTerms text company_name ≤ 0.8) ∧
    (0 ≤ scoreCompanyIdentifiers text company_name ∧
      scoreCompanyIdentifiers text company_name ≤ 1.0) :=
  ⟨⟨nameFreqScore_nonneg m, nameFreqScore_le m⟩,
   ⟨scoreIsOrgEntity_nonneg nlpEnts contexts company_name,
    scoreIsOrgEntity_le nlpEnts contexts company_name⟩,
   ⟨scoreIndustryTerms_nonneg text company_name, scoreIndustryTerms_le text company_name⟩,
   ⟨scoreCompanyIdentifiers_nonneg text company_name,
    scoreCompanyIdentifiers_le text company_name⟩⟩

/-- C4 counterexample: the code has no neutral 0.4 entity-recognition
fallback.  With an entity-recognition collaborator producing no entities
at all (the nearest model of an absent capability; the source instead
downloads the spaCy model at import time, lines 31-37), the
entity-recognition sub-score on a concrete scoring input is 0.0, not the
claimed fixed neutral 0.4. -/
theorem ner_neutral_fallback_counterexample :
    scoreIsOrgEntity (fun _ => [])
      (get_surrounding_context (ofStr "Traba is hiring") (ofStr "Traba") 50)
      (ofStr "Traba") = 0.0 ∧
    scoreIsOrgEntity (fun _ => [])
      (get_surrounding_context (ofStr "Traba is hiring") (ofStr "Traba") 50)
      (ofStr "Traba") ≠ 0.4 := by
  have h : orgEntityInContexts (fun _ => [])
      (get_surrounding_context (ofStr "Traba is hiring") (ofStr "Traba") 50)
      (ofStr "Traba") = false := by decide
  constructor
  · norm_num [scoreIsOrgEntity, h]
  · norm_num [scoreIsOrgEntity, h]

/-- C4 amended: the scoring call is total and admits no neutral fallback:
the entity-recognition sub-score is always either 0.0 (no organisation
entity naming the company among the first three windows) or 0.7, and in
particular never the value 0.4; a missing spaCy model is handled at import
time by downloading it, not inside the scorer. -/
theorem entity_rec_no_neutral_fallback (nlpEnts : Str → List SpacyEnt)
    (contexts : List Str) (company_name : Str) :
    (scoreIsOrgEntity nlpEnts contexts company_name = 0.0 ∨
      scoreIsOrgEntity nlpEnts contexts company_name = 0.7) ∧
    scoreIsOrgEntity nlpEnts contexts company_name ≠ 0.4 := by
  refine ⟨scoreIsOrgEntity_cases nlpEnts contexts company_name, ?_⟩
  rcases scoreIsOrgEntity_cases nlpEnts contexts company_name with h | h <;>
    rw [h] <;> norm_num

/-- Entity-recognition oracle recognising "Acme" as an organisation in
every text; used to show that the entity-recognition step still runs for
an unconfigured company. -/
def acmeOrgOracle : Str → List SpacyEnt := fun _ => [⟨ofStr "ORG", ofStr "Acme"⟩]

/-- C7 counterexample: for the unconfigured entity "Acme" the behaviour
does not reduce to steps 1-2 (mention gate and name frequency): the
entity-recognition step still runs and changes the returned confidence,
as two runs differing only in the entity-recognition collaborator show. -/
theorem unknown_company_not_freq_only_counterexample :
    company_contexts.lookup (ofStr "Acme") = none ∧
    (is_about_company acmeOrgOracle (ofStr "Acme is hiring") (ofStr "Acme") none).2.1 ≠
      (is_about_company (fun _ => []) (ofStr "Acme is hiring") (ofStr "Acme") none).2.1 := by
  refine ⟨by decide, ?_⟩
  rw [is_about_company_of_mentions acmeOrgOracle (ofStr "Acme is hiring") (ofStr "Acme") none
        (by decide) (by decide) (by decide),
      is_about_company_of_mentions (fun _ => []) (ofStr "Acme is hiring") (ofStr "Acme") none
        (by decide) (by decide) (by decide)]
  have h1 : orgEntityInContexts acmeOrgOracle
      (get_surrounding_context (ofStr "Acme is hiring") (ofStr "Acme") 50)
      (ofStr "Acme") = true := by decide
  have h2 : orgEntityInContexts (fun _ => [])
      (get_surrounding_context (ofStr "Acme is hiring") (ofStr "Acme") 50)
      (ofStr "Acme") = false := by decide
  have hl : company_contexts.lookup (ofStr "Acme") = none := by decide
  have hI := scoreIndustryTerms_of_lookup_none hl (ofStr "Acme is hiring")
  have hC := scoreCompanyIdentifiers_of_lookup_none hl (ofStr "Acme is hiring")
  simp only [confidenceOf, scoreIsOrgEntity, h1, h2, hI, hC, if_true, if_false]
  intro hEq
  have hw2 : weight_is_org_entity = 0.25 := rfl
  rw [hw2] at hEq
  norm_num at hEq

/-- C7 amended: for an entity name absent from the configured table the
scorer is total (never raises), the default threshold is 0.6, and the
industry-term and identifier-term sub-scores are both 0, so past the
mention gate the confidence reduces to the weighted name-frequency and
entity-recognition signals — steps 1-4, the entity-recognition step still
contributing. -/
theorem unknown_company_fallback (nlpEnts : Str → List SpacyEnt)
    (text company_name : Str)
    (h : company_contexts.lookup company_name = none)
    (hT : text ≠ []) (hN : company_name ≠ [])
    (hm : 1 ≤ countMentions text company_name) :
    defaultThreshold company_name = 0.6 ∧
    scoreIndustryTerms text company_name = 0 ∧
    scoreCompanyIdentifiers text company_name = 0 ∧
    (is_about_company nlpEnts text company_name none).2.1 =
      weight_name_frequency * nameFreqScore (countMentions text company_name) +
      weight_is_org_entity * scoreIsOrgEntity nlpEnts
        (get_surrounding_context text company_name 50) company_name := by
  refine ⟨defaultThreshold_of_lookup_none h, scoreIndustryTerms_of_lookup_none h text,
    scoreCompanyIdentifiers_of_lookup_none h text, ?_⟩
  rw [is_about_company_of_mentions nlpEnts text company_name none hT hN (by omega)]
  simp [confidenceOf, scoreIndustryTerms_of_lookup_none h text,
    scoreCompanyIdentifiers_of_lookup_none h text]

/-- Witness for the amended C7 at the unconfigured entity "Acme". -/
theorem unknown_company_fallback_witness :
    company_contexts.lookup (ofStr "Acme") = none ∧
    ofStr "Acme is hiring" ≠ [] ∧ ofStr "Acme" ≠ [] ∧
    1 ≤ countMentions (ofStr "Acme is hiring") (ofStr "Acme") ∧
    (defaultThreshold (ofStr "Acme") = 0.6 ∧
    scoreIndustryTerms (ofStr "Acme is hiring") (ofStr "Acme") = 0 ∧
    scoreCompanyIdentifiers (ofStr "Acme is hiring") (ofStr "Acme") = 0 ∧
    (is_about_company (fun _ => []) (ofStr "Acme is hiring") (ofStr "Acme") none).2.1 =
      weight_name_frequency * nameFreqScore (countMentions (ofStr "Acme is hiring") (ofStr "Acme")) +
      weight_is_org_entity * scoreIsOrgEntity (fun _ => [])
        (get_surrounding_context (ofStr "Acme is hiring") (ofStr "Acme") 50) (ofStr "Acme")) :=
  ⟨by decide, by decide, by decide, by decide,
    unknown_company_fallback (fun _ => []) (ofStr "Acme is hiring") (ofStr "Acme")
      (by decide) (by decide) (by decide) (by decide)⟩

/-- C8: context-window extraction is total — every whole-word match yields
exactly one window, each window is a contiguous slice of the text (clamped
to its bounds), and at least one mention guarantees a non-empty window
list, making the defensive zero-windows short-circuit unreachable. -/
theorem context_windows_safe (text company_name : Str) (window : Nat) :
    (get_surrounding_context text company_name window).length =
      countMentions text company_name ∧
    (∀ w ∈ get_surrounding_context text company_name window,
      ∃ pre post, text = pre ++ w ++ post) ∧
    (1 ≤ countMentions text company_name →
      get_surrounding_context text company_name window ≠ []) := by
  refine ⟨length_get_surrounding_context text company_name window, ?_, ?_⟩
  · intro w hw
    obtain ⟨s, _, rfl⟩ := List.mem_map.mp hw
    exact exists_slice_decomposition text (s - window) _
  · intro h1 hnil
    have hl := length_get_surrounding_context text company_name window
    rw [hnil] at hl
    simp at hl
    omega

/-- Witness for C8 on a text shorter than the window on both sides. -/
theorem context_windows_safe_witness :
    (get_surrounding_context (ofStr "Traba!") (ofStr "Traba") 50).length =
      countMentions (ofStr "Traba!") (ofStr "Traba") ∧
    1 ≤ countMentions (ofStr "Traba!") (ofStr "Traba") ∧
    get_surrounding_context (ofStr "Traba!") (ofStr "Traba") 50 ≠ [] :=
  ⟨(context_windows_safe (ofStr "Traba!") (ofStr "Traba") 50).1, by decide,
    (context_windows_safe (ofStr "Traba!") (ofStr "Traba") 50).2.2 (by decide)⟩

/-- C10: for an entity name absent from the configured table the
confidence is at most 0.15*0.7 + 0.25*0.7 = 0.28, hence with no explicit
threshold the call always returns `is_relevant = false`, for every text. -/
theorem unknown_company_never_relevant (nlpEnts : Str → List SpacyEnt)
    (text company_name : Str)
    (h : company_contexts.lookup company_name = none) :
    (is_about_company nlpEnts text company_name none).2.1 ≤ 0.28 ∧
    (is_about_company nlpEnts text company_name none).1 = false := by
  by_cases hT : text = [] ∨ company_name = []
  · unfold is_about_company
    rw [if_pos hT]
    norm_num
  · push_neg at hT
    by_cases hm : countMentions text company_name = 0
    · rw [is_about_company_of_zero_mentions nlpEnts text company_name none hm]
      norm_num
    · rw [is_about_company_of_mentions nlpEnts text company_name none hT.1 hT.2 hm]
      have hnf := nameFreqScore_le (countMentions text company_name)
      have her := scoreIsOrgEntity_le nlpEnts
        (get_surrounding_context text company_name 50) company_name
      have hconf : confidenceOf nlpEnts text company_name ≤ 0.28 := by
        unfold confidenceOf
        rw [scoreIndustryTerms_of_lookup_none h text,
          scoreCompanyIdentifiers_of_lookup_none h text]
        have hw1 : weight_name_frequency = 0.15 := rfl
        have hw2 : weight_is_org_entity = 0.25 := rfl
        rw [hw1, hw2]
        nlinarith [hnf, her]
      refine ⟨hconf, ?_⟩
      have hthr : (none : Option ℝ).getD (defaultThreshold company_name) = 0.6 := by
        rw [Option.getD_none, defaultThreshold_of_lookup_none h]
      simp only [hthr]
      have : ¬ ((0.6 : ℝ) ≤ confidenceOf nlpEnts text company_name) := by linarith
      simp [this]

/-- Witness for C10 at the unconfigured entity "Acme". -/
theorem unknown_company_never_relevant_witness :
    company_contexts.lookup (ofStr "Acme") = none ∧
    ((is_about_company (fun _ => []) (ofStr "Acme is hiring") (ofStr "Acme") none).2.1 ≤ 0.28 ∧
    (is_about_company (fun _ => []) (ofStr "Acme is hiring") (ofStr "Acme") none).1 = false) :=
  ⟨by decide,
    unknown_company_never_relevant (fun _ => []) (ofStr "Acme is hiring") (ofStr "Acme")
      (by decide)⟩
